import Mathlib

/-!
# lynx-redis: client resolution and metrics registration

A shallow embedding of `plug.go` (the two resolver queries `GetRedis` and
`GetUniversalRedis`) and of `metrics.go` (the fixed instrument set and the
one-time registration routine `init`), followed by the properties proved
about them.
-/

namespace LynxRedis

/-! ## Go values used by `plug.go` -/

/-- A Go pointer: `none` is the nil pointer, `some a` points at address `a`. -/
abbrev Ptr := Option Nat

/-- Dynamic type of a non-nil `redis.UniversalClient` interface value. -/
inductive ClientType
  | Client
  | ClusterClient
  | Ring
  | Other (id : Nat)
  deriving DecidableEq, Repr

/-- A value of interface type `redis.UniversalClient`: the nil interface, or a
dynamic type together with a pointer (which may itself be nil). -/
inductive UniversalClient
  | nil
  | iface (ty : ClientType) (p : Ptr)
  deriving DecidableEq, Repr

/-- Modelled from the spec: the struct `PlugRedis` is declared outside `plug.go`.
Its only field read there, `rdb`, is the stored universal handle field of the
spec, of interface type `redis.UniversalClient`. -/
structure PlugRedis where
  rdb : UniversalClient
  deriving DecidableEq, Repr

/-- A value of interface type `plugins.Plugin`: the nil interface, a
`*PlugRedis` pointer (possibly nil), or a value of some other dynamic type `ty`
whose method set may or may not hold `GetUniversalClient() redis.UniversalClient`
(when it does, `GetUniversalClient` is what the method returns). -/
inductive Plugin
  | nil
  | plugRedis (p : Option PlugRedis)
  | foreign (ty : Nat) (GetUniversalClient : Option UniversalClient)
  deriving DecidableEq, Repr

/-- The host's plugin table as seen through `GetPluginManager().GetPlugin(name)`. -/
abbrev PluginManager := String → Plugin

/-! ## Executions: observable steps and outcome -/

/-- The operations a resolver query performs, in program order. -/
inductive Step
  | getPlugin (name : String)
  | assertPlugRedis
  | loadRdb
  | assertAccessor
  | callAccessor
  | assertClient
  deriving DecidableEq, Repr

/-- How a Go function call ends: it returns a value, or it panics on a nil
pointer dereference. -/
inductive Outcome (α : Type)
  | ret (a : α)
  | nilDeref
  deriving DecidableEq, Repr

/-- Mapping a function over the returned value; a panic stays a panic. -/
def Outcome.map {α β : Type} (f : α → β) : Outcome α → Outcome β
  | Outcome.ret a => Outcome.ret (f a)
  | Outcome.nilDeref => Outcome.nilDeref

/-- An execution: the steps performed and the outcome. -/
structure Exec (α : Type) where
  trace : List Step
  out : Outcome α

/-- Returning a value performs no step. -/
def Exec.pure {α : Type} (a : α) : Exec α := ⟨[], Outcome.ret a⟩

/-- Sequencing: the second part runs only when the first returned. -/
def Exec.bind {α β : Type} (m : Exec α) (f : α → Exec β) : Exec β :=
  match m.out with
  | Outcome.ret a => ⟨m.trace ++ (f a).trace, (f a).out⟩
  | Outcome.nilDeref => ⟨m.trace, Outcome.nilDeref⟩

instance : Monad Exec where
  pure := Exec.pure
  bind := Exec.bind

/-- The lookup `lynx.Lynx().GetPluginManager().GetPlugin(pluginName)`. -/
def getPlugin (pm : PluginManager) (name : String) : Exec Plugin :=
  ⟨[Step.getPlugin name], Outcome.ret (pm name)⟩

/-- The comparison `plugin == nil` on an interface value. -/
def Plugin.isNil : Plugin → Bool
  | Plugin.nil => true
  | _ => false

/-- The comparison `universalClient == nil` on an interface value. -/
def UniversalClient.isNil : UniversalClient → Bool
  | UniversalClient.nil => true
  | _ => false

/-- The type assertion `plugin.(*PlugRedis)`: succeeds exactly when the dynamic
type is `*PlugRedis`, yielding the pointer (which may be nil). -/
def assertPlugRedis : Plugin → Exec (Option (Option PlugRedis))
  | Plugin.plugRedis p => ⟨[Step.assertPlugRedis], Outcome.ret (some p)⟩
  | _ => ⟨[Step.assertPlugRedis], Outcome.ret none⟩

/-- The field read `plugRedis.rdb`: panics on a nil `*PlugRedis`. -/
def loadRdb : Option PlugRedis → Exec UniversalClient
  | some s => ⟨[Step.loadRdb], Outcome.ret s.rdb⟩
  | none => ⟨[Step.loadRdb], Outcome.nilDeref⟩

/-- The type assertion `plugin.(interface { GetUniversalClient() redis.UniversalClient })`:
succeeds exactly when the dynamic type has the method. Both queries reach it
only after `plugin.(*PlugRedis)` has failed, so the `*PlugRedis` case is never
evaluated. -/
def assertAccessor : Plugin → Exec (Option UniversalClient)
  | Plugin.foreign _ (some u) => ⟨[Step.assertAccessor], Outcome.ret (some u)⟩
  | _ => ⟨[Step.assertAccessor], Outcome.ret none⟩

/-- The method call `plugRedis.GetUniversalClient()`. -/
def callAccessor (u : UniversalClient) : Exec UniversalClient :=
  ⟨[Step.callAccessor], Outcome.ret u⟩

/-- The type assertion `x.(*redis.Client)`: succeeds exactly when the dynamic
type is `*redis.Client`, yielding the pointer. -/
def assertClient : UniversalClient → Exec (Option Ptr)
  | UniversalClient.iface ClientType.Client p => ⟨[Step.assertClient], Outcome.ret (some p)⟩
  | _ => ⟨[Step.assertClient], Outcome.ret none⟩

/-! ## The resolver queries (`plug.go`) -/

/-- `GetUniversalRedis` of `plug.go`; the constant `pluginName` and the plugin
table are parameters. -/
def GetUniversalRedis (pluginName : String) (pm : PluginManager) : Exec UniversalClient := do
  let plugin ← getPlugin pm pluginName
  if plugin.isNil then
    pure UniversalClient.nil
  else
    match ← assertPlugRedis plugin with
    | some plugRedis => loadRdb plugRedis
    | none =>
      match ← assertAccessor plugin with
      | some plugRedis => callAccessor plugRedis
      | none => pure UniversalClient.nil

/-- `GetRedis` of `plug.go`; the result is a `*redis.Client` pointer. -/
def GetRedis (pluginName : String) (pm : PluginManager) : Exec Ptr := do
  let plugin ← getPlugin pm pluginName
  if plugin.isNil then
    pure none
  else
    match ← assertPlugRedis plugin with
    | some plugRedis =>
      match ← assertClient (← loadRdb plugRedis) with
      | some c => pure c
      | none => pure none
    | none =>
      let universalClient ← GetUniversalRedis pluginName pm
      if universalClient.isNil then
        pure none
      else
        match ← assertClient universalClient with
        | some c => pure c
        | none => pure none

/-! ## Instruments (`metrics.go`) -/

/-- The instrument kinds built by the `prometheus.New...` constructors used in
`metrics.go`. -/
inductive Kind
  | Counter
  | Gauge
  | Histogram
  | CounterVec
  | GaugeVec
  | HistogramVec
  deriving DecidableEq, Repr

/-- Bucket layouts named in `metrics.go`; only `prometheus.DefBuckets` occurs. -/
inductive Buckets
  | DefBuckets
  deriving DecidableEq, Repr

/-- The fields of `prometheus.CounterOpts` and `prometheus.GaugeOpts` that
`metrics.go` sets. -/
structure Opts where
  Namespace : String
  Subsystem : String
  Name : String
  Help : String
  deriving DecidableEq, Repr

/-- The fields of `prometheus.HistogramOpts` that `metrics.go` sets. -/
structure HistogramOpts where
  Namespace : String
  Subsystem : String
  Name : String
  Help : String
  Buckets : Buckets
  deriving DecidableEq, Repr

/-- A `prometheus.Collector` as built in `metrics.go`: its kind, its options
and its variable label names (empty for the non-vector kinds). -/
structure Collector where
  kind : Kind
  Namespace : String
  Subsystem : String
  Name : String
  Help : String
  Buckets : Option Buckets
  labels : List String
  deriving DecidableEq, Repr

/-- The constructor `prometheus.NewCounter`. -/
def NewCounter (o : Opts) : Collector :=
  ⟨Kind.Counter, o.Namespace, o.Subsystem, o.Name, o.Help, none, []⟩

/-- The constructor `prometheus.NewGauge`. -/
def NewGauge (o : Opts) : Collector :=
  ⟨Kind.Gauge, o.Namespace, o.Subsystem, o.Name, o.Help, none, []⟩

/-- The constructor `prometheus.NewHistogram`. -/
def NewHistogram (o : HistogramOpts) : Collector :=
  ⟨Kind.Histogram, o.Namespace, o.Subsystem, o.Name, o.Help, some o.Buckets, []⟩

/-- The constructor `prometheus.NewCounterVec`. -/
def NewCounterVec (o : Opts) (labelNames : List String) : Collector :=
  ⟨Kind.CounterVec, o.Namespace, o.Subsystem, o.Name, o.Help, none, labelNames⟩

/-- The constructor `prometheus.NewGaugeVec`. -/
def NewGaugeVec (o : Opts) (labelNames : List String) : Collector :=
  ⟨Kind.GaugeVec, o.Namespace, o.Subsystem, o.Name, o.Help, none, labelNames⟩

/-- The constructor `prometheus.NewHistogramVec`. -/
def NewHistogramVec (o : HistogramOpts) (labelNames : List String) : Collector :=
  ⟨Kind.HistogramVec, o.Namespace, o.Subsystem, o.Name, o.Help, some o.Buckets, labelNames⟩

/-- An instrument identity: the (namespace, subsystem, name) triple. -/
structure Identity where
  Namespace : String
  Subsystem : String
  Name : String
  deriving DecidableEq, Repr

/-- The identity under which a collector is registered. -/
def Collector.identity (c : Collector) : Identity :=
  ⟨c.Namespace, c.Subsystem, c.Name⟩

def redisStartupTotal : Collector :=
  NewCounter ⟨"lynx", "redis_client", "startup_total",
    "Total number of Redis client startups attempted."⟩

def redisStartupFailedTotal : Collector :=
  NewCounter ⟨"lynx", "redis_client", "startup_failed_total",
    "Total number of Redis client startup failures."⟩

def redisPingLatency : Collector :=
  NewHistogram ⟨"lynx", "redis_client", "ping_latency_seconds",
    "Latency of Redis PING operations.", Buckets.DefBuckets⟩

def redisPoolHits : Collector :=
  NewGauge ⟨"lynx", "redis_client", "pool_hits_total",
    "Total number of times a free connection was found in the pool."⟩

def redisPoolMisses : Collector :=
  NewGauge ⟨"lynx", "redis_client", "pool_misses_total",
    "Total number of times a free connection was NOT found in the pool."⟩

def redisPoolTimeouts : Collector :=
  NewGauge ⟨"lynx", "redis_client", "pool_timeouts_total",
    "Total number of connection timeouts."⟩

def redisPoolTotalConns : Collector :=
  NewGauge ⟨"lynx", "redis_client", "pool_total_conns",
    "The total number of connections in the pool."⟩

def redisPoolIdleConns : Collector :=
  NewGauge ⟨"lynx", "redis_client", "pool_idle_conns",
    "The number of idle connections."⟩

def redisPoolStaleConns : Collector :=
  NewGauge ⟨"lynx", "redis_client", "pool_stale_conns",
    "The number of stale connections removed from the pool."⟩

def redisCmdLatency : Collector :=
  NewHistogramVec ⟨"lynx", "redis_client", "cmd_latency_seconds",
    "Latency of Redis commands by name.", Buckets.DefBuckets⟩ ["cmd"]

def redisCmdErrors : Collector :=
  NewCounterVec ⟨"lynx", "redis_client", "cmd_errors_total",
    "Total number of Redis command errors by name."⟩ ["cmd"]

def redisClusterState : Collector :=
  NewGauge ⟨"lynx", "redis_client", "cluster_state",
    "Cluster state: 1 ok, 0 fail (only in cluster mode)."⟩

def redisIsMaster : Collector :=
  NewGauge ⟨"lynx", "redis_client", "is_master",
    "Role: 1 master, 0 replica (from INFO replication)."⟩

def redisConnectedSlaves : Collector :=
  NewGauge ⟨"lynx", "redis_client", "connected_slaves",
    "Number of connected replicas (from INFO replication)."⟩

def redisServerInfo : Collector :=
  NewGaugeVec ⟨"lynx", "redis_client", "server_info",
    "Static server info labeled with version, mode, client_name."⟩
    ["version", "mode", "client_name"]

/-- The slice `collectors` built inside `init`, in source order. -/
def collectors : List Collector :=
  [ redisStartupTotal,
    redisStartupFailedTotal,
    redisPingLatency,
    redisPoolHits,
    redisPoolMisses,
    redisPoolTimeouts,
    redisPoolTotalConns,
    redisPoolIdleConns,
    redisPoolStaleConns,
    redisCmdLatency,
    redisCmdErrors,
    redisClusterState,
    redisIsMaster,
    redisConnectedSlaves,
    redisServerInfo ]

/-! ## Registration (`metrics.go`, `init`) -/

/-- A non-nil error returned by `prometheus.Register`: either a
`prometheus.AlreadyRegisteredError` or any other error. -/
inductive RegError
  | AlreadyRegisteredError
  | other (msg : String)
  deriving DecidableEq, Repr

/-- The type assertion `err.(prometheus.AlreadyRegisteredError)`. -/
def RegError.isAlreadyRegistered : RegError → Bool
  | RegError.AlreadyRegisteredError => true
  | RegError.other _ => false

/-- One `prometheus.Register(collector)` call made by `init` and the error it
returned (`none` is the nil error). -/
structure Call where
  collector : Collector
  err : Option RegError
  deriving DecidableEq, Repr

/-- The call returned an error other than `AlreadyRegisteredError`. -/
def Call.unexpected (c : Call) : Bool :=
  match c.err with
  | none => false
  | some e => !e.isAlreadyRegistered

/-- The call returned the nil error: the collector was registered by it. -/
def Call.ok (c : Call) : Bool :=
  c.err.isNone

/-- The package-level variable `metricsRegistered` together with the state of
the collector that `prometheus.Register` acts on. -/
structure State (σ : Type) where
  metricsRegistered : Bool
  registry : σ

/-- Where the `for` loop of `init` stands when it is left: whether it ran to
the end (`completed`) or was left by the `return` inside it, the collector
state, and the `Register` calls made. -/
structure LoopResult (σ : Type) where
  completed : Bool
  registry : σ
  calls : List Call

/-- The `for _, collector := range collectors` loop of `init`. `Register` is
the external `prometheus.Register`, acting on a collector state of type `σ`. -/
def registerLoop {σ : Type} (Register : σ → Collector → σ × Option RegError) :
    List Collector → σ → LoopResult σ
  | [], reg => ⟨true, reg, []⟩
  | collector :: rest, reg =>
    match Register reg collector with
    | (reg1, none) =>
      let r := registerLoop Register rest reg1
      ⟨r.completed, r.registry, ⟨collector, none⟩ :: r.calls⟩
    | (reg1, some err) =>
      if err.isAlreadyRegistered then
        let r := registerLoop Register rest reg1
        ⟨r.completed, r.registry, ⟨collector, some err⟩ :: r.calls⟩
      else
        ⟨false, reg1, [⟨collector, some err⟩]⟩

/-- The registration routine `init` of `metrics.go`, run under the mutex: the
new state and the `Register` calls made, in order. -/
def init {σ : Type} (Register : σ → Collector → σ × Option RegError)
    (st : State σ) : State σ × List Call :=
  if st.metricsRegistered then
    (st, [])
  else
    let r := registerLoop Register collectors st.registry
    if r.completed then
      (⟨true, r.registry⟩, r.calls)
    else
      (⟨st.metricsRegistered, r.registry⟩, r.calls)

/-- Running `init` once per entry of `Rs`, in order, each run against the
collector behaviour given by its entry; the calls of all runs are concatenated. -/
def runSeq {σ : Type} : List (σ → Collector → σ × Option RegError) → State σ →
    State σ × List Call
  | [], st => (st, [])
  | R :: Rs, st =>
    let p := init R st
    let q := runSeq Rs p.1
    (q.1, p.2 ++ q.2)

/-! ## A reference collector -/

/-- State of a reference metrics collector (the collector is an external
collaborator; its interface is
`Register(instrument) -> ok | alreadyRegisteredError | otherError`): the
identities registered so far, one entry per successful registration. -/
structure Registry where
  ids : List Identity
  deriving DecidableEq, Repr

/-- Registering into the reference collector. A call that `rejects` picks out
fails with another error and changes nothing; otherwise an identity already
present yields `AlreadyRegisteredError` and changes nothing, and a new identity
is added and the call succeeds. -/
def Registry.Register (rejects : Collector → Bool) (r : Registry) (c : Collector) :
    Registry × Option RegError :=
  if rejects c then
    (r, some (RegError.other "register failed"))
  else if c.identity ∈ r.ids then
    (r, some RegError.AlreadyRegisteredError)
  else
    (⟨r.ids ++ [c.identity]⟩, none)

/-! ## The single-node projection -/

/-- The single-node view of a universal client, as the specification words it:
type-asserting the universal value to `*redis.Client` gives that client when
the assertion succeeds and nil otherwise. -/
def singleNodeProjection : UniversalClient → Ptr
  | UniversalClient.iface ClientType.Client p => p
  | _ => none

/-! ## Counting successful registrations -/

/-- The number of calls in a log in which `Register` returned the nil error for
a collector of identity `i`. -/
def okCount (i : Identity) (calls : List Call) : Nat :=
  calls.countP (fun call => call.ok && decide (call.collector.identity = i))

/-! ## Resolver properties -/

/-- C1 (topology correctness). When the plugin table holds a `*PlugRedis` handle
with stored universal client `rdb`: if `rdb` is a single-node `*redis.Client`
pointing at `c`, then `GetRedis` returns the non-nil pointer `c` and
`GetUniversalRedis` returns the universal value wrapping that same `c`; if `rdb`
is a non-nil universal client of any other dynamic type (cluster, ring, ...),
then `GetRedis` returns nil while `GetUniversalRedis` returns `rdb`, which is
non-nil. -/
theorem topology_correctness (pluginName : String) (pm : PluginManager)
    (rdb : UniversalClient)
    (h : pm pluginName = Plugin.plugRedis (some ⟨rdb⟩)) :
    (∀ c : Nat, rdb = UniversalClient.iface ClientType.Client (some c) →
      (GetRedis pluginName pm).out = Outcome.ret (some c) ∧
      (GetRedis pluginName pm).out ≠ Outcome.ret none ∧
      (GetUniversalRedis pluginName pm).out
        = Outcome.ret (UniversalClient.iface ClientType.Client (some c)) ∧
      (GetUniversalRedis pluginName pm).out.map singleNodeProjection
        = (GetRedis pluginName pm).out) ∧
    (∀ (ty : ClientType) (p : Ptr), rdb = UniversalClient.iface ty p →
      ty ≠ ClientType.Client →
      (GetRedis pluginName pm).out = Outcome.ret none ∧
      (GetUniversalRedis pluginName pm).out = Outcome.ret rdb ∧
      rdb.isNil = false) := by
  constructor
  · intro c hc
    subst hc
    simp [GetRedis, GetUniversalRedis, getPlugin, h, bind, Exec.bind, pure, Exec.pure,
      Plugin.isNil, assertPlugRedis, loadRdb, assertClient, Outcome.map,
      singleNodeProjection]
  · intro ty p hu hty
    subst hu
    cases ty <;>
      simp_all [GetRedis, GetUniversalRedis, getPlugin, bind, Exec.bind, pure, Exec.pure,
        Plugin.isNil, assertPlugRedis, loadRdb, assertClient, UniversalClient.isNil]

/-- Witness for C1: a table holding a single-node handle and one holding a
cluster handle. -/
theorem topology_correctness_witness :
    ((GetRedis "redis.client"
        (fun _ => Plugin.plugRedis
          (some ⟨UniversalClient.iface ClientType.Client (some 7)⟩))).out
      = Outcome.ret (some 7)) ∧
    ((GetRedis "redis.client"
        (fun _ => Plugin.plugRedis
          (some ⟨UniversalClient.iface ClientType.ClusterClient (some 7)⟩))).out
      = Outcome.ret none) :=
  ⟨((topology_correctness "redis.client"
      (fun _ => Plugin.plugRedis
        (some ⟨UniversalClient.iface ClientType.Client (some 7)⟩))
      (UniversalClient.iface ClientType.Client (some 7)) rfl).1 7 rfl).1,
   ((topology_correctness "redis.client"
      (fun _ => Plugin.plugRedis
        (some ⟨UniversalClient.iface ClientType.ClusterClient (some 7)⟩))
      (UniversalClient.iface ClientType.ClusterClient (some 7)) rfl).2
      ClientType.ClusterClient (some 7) rfl (by decide)).1⟩

/-- C2 (absent-plugin safety). When `GetPlugin(pluginName)` returns nil, both
`GetRedis` and `GetUniversalRedis` return nil without panicking, and the lookup
is the only step either of them performs. -/
theorem absent_plugin_safety (pluginName : String) (pm : PluginManager)
    (h : pm pluginName = Plugin.nil) :
    (GetRedis pluginName pm).out = Outcome.ret none ∧
    (GetRedis pluginName pm).trace = [Step.getPlugin pluginName] ∧
    (GetUniversalRedis pluginName pm).out = Outcome.ret UniversalClient.nil ∧
    (GetUniversalRedis pluginName pm).trace = [Step.getPlugin pluginName] := by
  simp [GetRedis, GetUniversalRedis, getPlugin, h, bind, Exec.bind, pure, Exec.pure,
    Plugin.isNil]

/-- Witness for C2: the empty plugin table. -/
theorem absent_plugin_safety_witness :
    (GetRedis "redis.client" (fun _ => Plugin.nil)).out = Outcome.ret none ∧
    (GetRedis "redis.client" (fun _ => Plugin.nil)).trace
      = [Step.getPlugin "redis.client"] ∧
    (GetUniversalRedis "redis.client" (fun _ => Plugin.nil)).out
      = Outcome.ret UniversalClient.nil ∧
    (GetUniversalRedis "redis.client" (fun _ => Plugin.nil)).trace
      = [Step.getPlugin "redis.client"] :=
  absent_plugin_safety "redis.client" (fun _ => Plugin.nil) rfl

/-- C3 (capability fallback). For a handle of another dynamic type that exposes
`GetUniversalClient()`, `GetUniversalRedis` returns exactly what the accessor
returns, after the `*PlugRedis` assertion was tried first and failed. For a
`*PlugRedis` handle the stored `rdb` is returned right after the first
assertion: the accessor is neither looked for nor called. -/
theorem capability_fallback (pluginName : String) (pm : PluginManager) :
    (∀ (ty : Nat) (u : UniversalClient), pm pluginName = Plugin.foreign ty (some u) →
      (GetUniversalRedis pluginName pm).out = Outcome.ret u ∧
      (GetUniversalRedis pluginName pm).trace
        = [Step.getPlugin pluginName, Step.assertPlugRedis, Step.assertAccessor,
            Step.callAccessor]) ∧
    (∀ s : PlugRedis, pm pluginName = Plugin.plugRedis (some s) →
      (GetUniversalRedis pluginName pm).out = Outcome.ret s.rdb ∧
      (GetUniversalRedis pluginName pm).trace
        = [Step.getPlugin pluginName, Step.assertPlugRedis, Step.loadRdb] ∧
      Step.assertAccessor ∉ (GetUniversalRedis pluginName pm).trace ∧
      Step.callAccessor ∉ (GetUniversalRedis pluginName pm).trace) := by
  constructor
  · intro ty u h
    simp [GetUniversalRedis, getPlugin, h, bind, Exec.bind, pure, Exec.pure,
      Plugin.isNil, assertPlugRedis, assertAccessor, callAccessor]
  · intro s h
    simp [GetUniversalRedis, getPlugin, h, bind, Exec.bind, pure, Exec.pure,
      Plugin.isNil, assertPlugRedis, loadRdb]

/-- Witness for C3: a wrapped handle exposing a cluster client, and the
originating handle. -/
theorem capability_fallback_witness :
    (GetUniversalRedis "redis.client"
        (fun _ => Plugin.foreign 1
          (some (UniversalClient.iface ClientType.ClusterClient (some 4))))).out
      = Outcome.ret (UniversalClient.iface ClientType.ClusterClient (some 4)) ∧
    (GetUniversalRedis "redis.client"
        (fun _ => Plugin.plugRedis
          (some ⟨UniversalClient.iface ClientType.Ring (some 5)⟩))).trace
      = [Step.getPlugin "redis.client", Step.assertPlugRedis, Step.loadRdb] :=
  ⟨((capability_fallback "redis.client"
      (fun _ => Plugin.foreign 1
        (some (UniversalClient.iface ClientType.ClusterClient (some 4))))).1
      1 (UniversalClient.iface ClientType.ClusterClient (some 4)) rfl).1,
   ((capability_fallback "redis.client"
      (fun _ => Plugin.plugRedis
        (some ⟨UniversalClient.iface ClientType.Ring (some 5)⟩))).2
      ⟨UniversalClient.iface ClientType.Ring (some 5)⟩ rfl).2.1⟩

/-- C8 (unrecognized handles degrade to absent). For a non-nil handle that is
neither a `*PlugRedis` nor exposes `GetUniversalClient()`, both queries return
nil. For a non-`*PlugRedis` handle that exposes the accessor, `GetRedis` returns
the accessor's value when that value is a `*redis.Client` and nil in every other
case; in all these cases the call returns and does not panic. -/
theorem unrecognized_handle_absent (pluginName : String) (pm : PluginManager) :
    (∀ ty : Nat, pm pluginName = Plugin.foreign ty none →
      (GetUniversalRedis pluginName pm).out = Outcome.ret UniversalClient.nil ∧
      (GetRedis pluginName pm).out = Outcome.ret none) ∧
    (∀ (ty : Nat) (u : UniversalClient), pm pluginName = Plugin.foreign ty (some u) →
      (∀ p : Ptr, u = UniversalClient.iface ClientType.Client p →
        (GetRedis pluginName pm).out = Outcome.ret p) ∧
      ((∀ p : Ptr, u ≠ UniversalClient.iface ClientType.Client p) →
        (GetRedis pluginName pm).out = Outcome.ret none) ∧
      (GetRedis pluginName pm).out ≠ Outcome.nilDeref) := by
  constructor
  · intro ty h
    simp [GetRedis, GetUniversalRedis, getPlugin, h, bind, Exec.bind, pure, Exec.pure,
      Plugin.isNil, assertPlugRedis, assertAccessor, UniversalClient.isNil]
  · intro ty u h
    refine ⟨?_, ?_, ?_⟩
    · intro p hp
      subst hp
      cases p <;>
        simp [GetRedis, GetUniversalRedis, getPlugin, h, bind, Exec.bind, pure, Exec.pure,
          Plugin.isNil, assertPlugRedis, assertAccessor, callAccessor,
          UniversalClient.isNil, assertClient]
    · intro hu
      cases u with
      | nil =>
        simp [GetRedis, GetUniversalRedis, getPlugin, h, bind, Exec.bind, pure, Exec.pure,
          Plugin.isNil, assertPlugRedis, assertAccessor, callAccessor,
          UniversalClient.isNil]
      | iface t p =>
        cases t with
        | Client => exact absurd rfl (hu p)
        | ClusterClient =>
          simp [GetRedis, GetUniversalRedis, getPlugin, h, bind, Exec.bind, pure,
            Exec.pure, Plugin.isNil, assertPlugRedis, assertAccessor, callAccessor,
            UniversalClient.isNil, assertClient]
        | Ring =>
          simp [GetRedis, GetUniversalRedis, getPlugin, h, bind, Exec.bind, pure,
            Exec.pure, Plugin.isNil, assertPlugRedis, assertAccessor, callAccessor,
            UniversalClient.isNil, assertClient]
        | Other id =>
          simp [GetRedis, GetUniversalRedis, getPlugin, h, bind, Exec.bind, pure,
            Exec.pure, Plugin.isNil, assertPlugRedis, assertAccessor, callAccessor,
            UniversalClient.isNil, assertClient]
    · cases u with
      | nil =>
        simp [GetRedis, GetUniversalRedis, getPlugin, h, bind, Exec.bind, pure, Exec.pure,
          Plugin.isNil, assertPlugRedis, assertAccessor, callAccessor,
          UniversalClient.isNil]
      | iface t p =>
        cases t <;>
          simp [GetRedis, GetUniversalRedis, getPlugin, h, bind, Exec.bind, pure,
            Exec.pure, Plugin.isNil, assertPlugRedis, assertAccessor, callAccessor,
            UniversalClient.isNil, assertClient]

/-- Witness for C8: a handle without the accessor, and a wrapped handle whose
accessor returns a single-node client. -/
theorem unrecognized_handle_absent_witness :
    (GetRedis "redis.client" (fun _ => Plugin.foreign 2 none)).out = Outcome.ret none ∧
    (GetRedis "redis.client"
        (fun _ => Plugin.foreign 2
          (some (UniversalClient.iface ClientType.Client (some 3))))).out
      = Outcome.ret (some 3) :=
  ⟨((unrecognized_handle_absent "redis.client" (fun _ => Plugin.foreign 2 none)).1
      2 rfl).2,
   ((unrecognized_handle_absent "redis.client"
      (fun _ => Plugin.foreign 2
        (some (UniversalClient.iface ClientType.Client (some 3))))).2
      2 (UniversalClient.iface ClientType.Client (some 3)) rfl).1 (some 3) rfl⟩

/-- C10 (refinement). In every state of the plugin table, held fixed across the
two calls, the outcome of `GetRedis` is the single-node projection of the
outcome of `GetUniversalRedis`. In particular a non-nil `GetRedis` result means
`GetUniversalRedis` returns the non-nil universal value wrapping the same
client, and the direct `*PlugRedis` branch of `GetRedis` agrees with its
fallback branch on the same underlying universal client. -/
theorem getRedis_refines_universal (pluginName : String) (pm : PluginManager) :
    (GetRedis pluginName pm).out
      = (GetUniversalRedis pluginName pm).out.map singleNodeProjection ∧
    (∀ c : Nat, (GetRedis pluginName pm).out = Outcome.ret (some c) →
      (GetUniversalRedis pluginName pm).out
        = Outcome.ret (UniversalClient.iface ClientType.Client (some c))) ∧
    (∀ (pm2 : PluginManager) (u : UniversalClient) (ty : Nat),
      pm pluginName = Plugin.plugRedis (some ⟨u⟩) →
      pm2 pluginName = Plugin.foreign ty (some u) →
      (GetRedis pluginName pm).out = (GetRedis pluginName pm2).out) := by
  have key : ∀ pm : PluginManager, (GetRedis pluginName pm).out
      = (GetUniversalRedis pluginName pm).out.map singleNodeProjection := by
    intro pm
    cases h : pm pluginName with
    | nil =>
      simp [GetRedis, GetUniversalRedis, getPlugin, h, bind, Exec.bind, pure, Exec.pure,
        Plugin.isNil, Outcome.map, singleNodeProjection]
    | plugRedis q =>
      cases q with
      | none =>
        simp [GetRedis, GetUniversalRedis, getPlugin, h, bind, Exec.bind, pure,
          Exec.pure, Plugin.isNil, assertPlugRedis, loadRdb, Outcome.map]
      | some s =>
        obtain ⟨u⟩ := s
        cases u with
        | nil =>
          simp [GetRedis, GetUniversalRedis, getPlugin, h, bind, Exec.bind, pure,
            Exec.pure, Plugin.isNil, assertPlugRedis, loadRdb, assertClient,
            Outcome.map, singleNodeProjection]
        | iface t p =>
          cases t <;>
            simp [GetRedis, GetUniversalRedis, getPlugin, h, bind, Exec.bind, pure,
              Exec.pure, Plugin.isNil, assertPlugRedis, loadRdb, assertClient,
              Outcome.map, singleNodeProjection]
    | foreign ty acc =>
      cases acc with
      | none =>
        simp [GetRedis, GetUniversalRedis, getPlugin, h, bind, Exec.bind, pure,
          Exec.pure, Plugin.isNil, assertPlugRedis, assertAccessor,
          UniversalClient.isNil, Outcome.map, singleNodeProjection]
      | some u =>
        cases u with
        | nil =>
          simp [GetRedis, GetUniversalRedis, getPlugin, h, bind, Exec.bind, pure,
            Exec.pure, Plugin.isNil, assertPlugRedis, assertAccessor, callAccessor,
            UniversalClient.isNil, Outcome.map, singleNodeProjection]
        | iface t p =>
          cases t <;>
            simp [GetRedis, GetUniversalRedis, getPlugin, h, bind, Exec.bind, pure,
              Exec.pure, Plugin.isNil, assertPlugRedis, assertAccessor, callAccessor,
              UniversalClient.isNil, assertClient, Outcome.map, singleNodeProjection]
  have uni1 : ∀ (pm : PluginManager) (u : UniversalClient),
      pm pluginName = Plugin.plugRedis (some ⟨u⟩) →
      (GetUniversalRedis pluginName pm).out = Outcome.ret u := by
    intro pm u h
    simp [GetUniversalRedis, getPlugin, h, bind, Exec.bind, pure, Exec.pure,
      Plugin.isNil, assertPlugRedis, loadRdb]
  have uni2 : ∀ (pm : PluginManager) (u : UniversalClient) (ty : Nat),
      pm pluginName = Plugin.foreign ty (some u) →
      (GetUniversalRedis pluginName pm).out = Outcome.ret u := by
    intro pm u ty h
    simp [GetUniversalRedis, getPlugin, h, bind, Exec.bind, pure, Exec.pure,
      Plugin.isNil, assertPlugRedis, assertAccessor, callAccessor]
  refine ⟨key pm, ?_, ?_⟩
  · intro c hc
    rw [key pm] at hc
    cases hu : (GetUniversalRedis pluginName pm).out with
    | nilDeref => rw [hu] at hc; simp [Outcome.map] at hc
    | ret u =>
      rw [hu] at hc
      cases u with
      | nil => simp [Outcome.map, singleNodeProjection] at hc
      | iface t p =>
        cases t <;> simp [Outcome.map, singleNodeProjection] at hc
        rw [hc]
  · intro pm2 u ty h1 h2
    rw [key pm, key pm2, uni1 pm u h1, uni2 pm2 u ty h2]

/-- Witness for C10: the same single-node client reached through the
originating handle and through a wrapped handle. -/
theorem getRedis_refines_universal_witness :
    (GetRedis "redis.client"
        (fun _ => Plugin.plugRedis
          (some ⟨UniversalClient.iface ClientType.Client (some 7)⟩))).out
      = (GetRedis "redis.client"
        (fun _ => Plugin.foreign 1
          (some (UniversalClient.iface ClientType.Client (some 7))))).out ∧
    (GetUniversalRedis "redis.client"
        (fun _ => Plugin.plugRedis
          (some ⟨UniversalClient.iface ClientType.Client (some 7)⟩))).out
      = Outcome.ret (UniversalClient.iface ClientType.Client (some 7)) :=
  ⟨(getRedis_refines_universal "redis.client"
      (fun _ => Plugin.plugRedis
        (some ⟨UniversalClient.iface ClientType.Client (some 7)⟩))).2.2
      (fun _ => Plugin.foreign 1
        (some (UniversalClient.iface ClientType.Client (some 7))))
      (UniversalClient.iface ClientType.Client (some 7)) 1 rfl rfl,
   (getRedis_refines_universal "redis.client"
      (fun _ => Plugin.plugRedis
        (some ⟨UniversalClient.iface ClientType.Client (some 7)⟩))).2.1 7 rfl⟩

/-! ## The instrument table -/

/-- C7 (fixed instrument set). The `collectors` list holds exactly 15
instruments, all in namespace `lynx` and subsystem `redis_client`, with pairwise
distinct names (hence pairwise distinct identities), and their names, kinds and
label sets, in list order, are exactly those of the table. -/
theorem instrument_set :
    collectors.length = 15 ∧
    (∀ c ∈ collectors, c.Namespace = "lynx" ∧ c.Subsystem = "redis_client") ∧
    (collectors.map (fun c => c.Name)).Nodup ∧
    (collectors.map Collector.identity).Nodup ∧
    collectors.map (fun c => (c.Name, c.kind, c.labels)) =
      [ ("startup_total", Kind.Counter, []),
        ("startup_failed_total", Kind.Counter, []),
        ("ping_latency_seconds", Kind.Histogram, []),
        ("pool_hits_total", Kind.Gauge, []),
        ("pool_misses_total", Kind.Gauge, []),
        ("pool_timeouts_total", Kind.Gauge, []),
        ("pool_total_conns", Kind.Gauge, []),
        ("pool_idle_conns", Kind.Gauge, []),
        ("pool_stale_conns", Kind.Gauge, []),
        ("cmd_latency_seconds", Kind.HistogramVec, ["cmd"]),
        ("cmd_errors_total", Kind.CounterVec, ["cmd"]),
        ("cluster_state", Kind.Gauge, []),
        ("is_master", Kind.Gauge, []),
        ("connected_slaves", Kind.Gauge, []),
        ("server_info", Kind.GaugeVec, ["version", "mode", "client_name"]) ] := by
  refine ⟨rfl, by decide, by decide, by decide, rfl⟩

/-! ## The registration loop: general facts -/

/-- The identities of the fixed instrument list are pairwise distinct. -/
theorem collectors_identity_nodup : (collectors.map Collector.identity).Nodup := by
  decide

/-- A loop in which no call returned an unexpected error ran to the end and
attempted every collector in list order. -/
theorem registerLoop_all_absorbed {σ : Type}
    (Register : σ → Collector → σ × Option RegError) (cs : List Collector) (reg : σ)
    (h : ∀ call ∈ (registerLoop Register cs reg).calls, call.unexpected = false) :
    (registerLoop Register cs reg).completed = true ∧
    (registerLoop Register cs reg).calls.map Call.collector = cs := by
  induction cs generalizing reg with
  | nil => simp [registerLoop]
  | cons c rest ih =>
    rcases hr : Register reg c with ⟨reg1, e⟩
    cases e with
    | none =>
      simp only [registerLoop, hr] at h ⊢
      have h2 := ih reg1 (fun call hc => h call (List.mem_cons_of_mem _ hc))
      simp [h2.1, h2.2]
    | some err =>
      cases hA : err.isAlreadyRegistered with
      | true =>
        simp only [registerLoop, hr, hA, if_true] at h ⊢
        have h2 := ih reg1 (fun call hc => h call (List.mem_cons_of_mem _ hc))
        simp [h2.1, h2.2]
      | false =>
        simp only [registerLoop, hr, hA] at h
        have := h ⟨c, some err⟩ (by simp)
        simp [Call.unexpected, hA] at this

/-- A loop that did not run to the end stopped at the first collector whose
call returned an unexpected error: the attempted collectors are a prefix of the
list ending in that collector, and no earlier call was unexpected. -/
theorem registerLoop_aborted {σ : Type}
    (Register : σ → Collector → σ × Option RegError) (cs : List Collector) (reg : σ)
    (h : (registerLoop Register cs reg).completed = false) :
    ∃ (pre : List Call) (c : Collector) (post : List Collector) (e : RegError),
      cs = pre.map Call.collector ++ c :: post ∧
      (registerLoop Register cs reg).calls = pre ++ [⟨c, some e⟩] ∧
      e.isAlreadyRegistered = false ∧
      (∀ call ∈ pre, call.unexpected = false) := by
  induction cs generalizing reg with
  | nil => simp [registerLoop] at h
  | cons c rest ih =>
    rcases hr : Register reg c with ⟨reg1, e⟩
    cases e with
    | none =>
      simp only [registerLoop, hr] at h ⊢
      obtain ⟨pre, c2, post, e2, h1, h2, h3, h4⟩ := ih reg1 h
      refine ⟨⟨c, none⟩ :: pre, c2, post, e2, ?_, ?_, h3, ?_⟩
      · simp [h1]
      · simp [h2]
      · intro call hc
        rcases List.mem_cons.mp hc with rfl | hc
        · rfl
        · exact h4 call hc
    | some err =>
      cases hA : err.isAlreadyRegistered with
      | true =>
        simp only [registerLoop, hr, hA, if_true] at h ⊢
        obtain ⟨pre, c2, post, e2, h1, h2, h3, h4⟩ := ih reg1 h
        refine ⟨⟨c, some err⟩ :: pre, c2, post, e2, ?_, ?_, h3, ?_⟩
        · simp [h1]
        · simp [h2]
        · intro call hc
          rcases List.mem_cons.mp hc with rfl | hc
          · simp [Call.unexpected, hA]
          · exact h4 call hc
      | false =>
        refine ⟨[], c, rest, err, ?_, ?_, hA, ?_⟩
        · simp
        · simp [registerLoop, hr, hA]
        · simp

/-- A loop that ran to the end made no call with an unexpected error. -/
theorem registerLoop_completed {σ : Type}
    (Register : σ → Collector → σ × Option RegError) (cs : List Collector) (reg : σ)
    (h : (registerLoop Register cs reg).completed = true) :
    ∀ call ∈ (registerLoop Register cs reg).calls, call.unexpected = false := by
  induction cs generalizing reg with
  | nil => simp [registerLoop]
  | cons c rest ih =>
    rcases hr : Register reg c with ⟨reg1, e⟩
    cases e with
    | none =>
      simp only [registerLoop, hr] at h ⊢
      intro call hc
      rcases List.mem_cons.mp hc with rfl | hc
      · rfl
      · exact ih reg1 h call hc
    | some err =>
      cases hA : err.isAlreadyRegistered with
      | true =>
        simp only [registerLoop, hr, hA, if_true] at h ⊢
        intro call hc
        rcases List.mem_cons.mp hc with rfl | hc
        · simp [Call.unexpected, hA]
        · exact ih reg1 h call hc
      | false =>
        simp [registerLoop, hr, hA] at h

/-- A run of `init` that starts with the flag set returns at once. -/
theorem init_of_registered {σ : Type}
    (Register : σ → Collector → σ × Option RegError) (st : State σ)
    (h : st.metricsRegistered = true) : init Register st = (st, []) := by
  simp [init, h]

/-- A run of `init` that starts with the flag unset runs the loop once; the flag
afterwards tells whether the loop ran to the end. -/
theorem init_of_unregistered {σ : Type}
    (Register : σ → Collector → σ × Option RegError) (st : State σ)
    (h : st.metricsRegistered = false) :
    init Register st =
      (⟨(registerLoop Register collectors st.registry).completed,
        (registerLoop Register collectors st.registry).registry⟩,
       (registerLoop Register collectors st.registry).calls) := by
  cases hc : (registerLoop Register collectors st.registry).completed <;>
    simp [init, h, hc]

/-- A sequence of runs that starts with the flag set changes nothing. -/
theorem runSeq_of_registered {σ : Type}
    (Rs : List (σ → Collector → σ × Option RegError)) (st : State σ)
    (h : st.metricsRegistered = true) : runSeq Rs st = (st, []) := by
  induction Rs with
  | nil => rfl
  | cons R Rs ih => simp [runSeq, init_of_registered R st h, ih]

/-- Running two sequences of runs one after the other. -/
theorem runSeq_append {σ : Type}
    (Rs1 Rs2 : List (σ → Collector → σ × Option RegError)) (st : State σ) :
    runSeq (Rs1 ++ Rs2) st =
      ((runSeq Rs2 (runSeq Rs1 st).1).1, (runSeq Rs1 st).2 ++ (runSeq Rs2 (runSeq Rs1 st).1).2) := by
  induction Rs1 generalizing st with
  | nil => simp [runSeq]
  | cons R Rs ih => simp [runSeq, ih, List.append_assoc]

/-! ## The registration loop against the reference collector -/

/-- The loop over a list of collectors with pairwise distinct identities, none
of which is rejected: it runs to the end, every identity not yet present is
appended in list order, and each call returns `AlreadyRegisteredError` exactly
when the identity was present before the loop. -/
theorem registerLoop_reference (rejects : Collector → Bool) (cs : List Collector)
    (reg : Registry) (hnd : (cs.map Collector.identity).Nodup)
    (hrej : ∀ c ∈ cs, rejects c = false) :
    (registerLoop (Registry.Register rejects) cs reg).completed = true ∧
    (registerLoop (Registry.Register rejects) cs reg).registry.ids
      = reg.ids ++ (cs.map Collector.identity).filter (fun i => decide (i ∉ reg.ids)) ∧
    (registerLoop (Registry.Register rejects) cs reg).calls
      = cs.map (fun c => Call.mk c
          (if c.identity ∈ reg.ids then some RegError.AlreadyRegisteredError else none)) := by
  induction cs generalizing reg with
  | nil => simp [registerLoop]
  | cons c rest ih =>
    have hc : rejects c = false := hrej c (List.mem_cons_self _ _)
    have hrest : ∀ x ∈ rest, rejects x = false :=
      fun x hx => hrej x (List.mem_cons_of_mem _ hx)
    rw [List.map_cons, List.nodup_cons] at hnd
    obtain ⟨hnot, hnd2⟩ := hnd
    by_cases hm : c.identity ∈ reg.ids
    · have hr : Registry.Register rejects reg c
          = (reg, some RegError.AlreadyRegisteredError) := by
        simp [Registry.Register, hc, hm]
      obtain ⟨h1, h2, h3⟩ := ih reg hnd2 hrest
      simp only [registerLoop, hr, RegError.isAlreadyRegistered, if_true]
      refine ⟨h1, ?_, ?_⟩
      · rw [h2]
        simp [List.filter_cons, hm]
      · rw [h3]
        simp [hm]
    · have hr : Registry.Register rejects reg c
          = (⟨reg.ids ++ [c.identity]⟩, none) := by
        simp [Registry.Register, hc, hm]
      obtain ⟨h1, h2, h3⟩ := ih ⟨reg.ids ++ [c.identity]⟩ hnd2 hrest
      simp only [registerLoop, hr]
      refine ⟨h1, ?_, ?_⟩
      · rw [h2]
        have hf : (rest.map Collector.identity).filter
              (fun i => decide (i ∉ reg.ids ++ [c.identity]))
            = (rest.map Collector.identity).filter (fun i => decide (i ∉ reg.ids)) := by
          apply List.filter_congr
          intro x hx
          have hxc : x ≠ c.identity := fun hxc => hnot (hxc ▸ hx)
          simp [hxc]
        show (reg.ids ++ [c.identity])
            ++ List.filter (fun i => decide (i ∉ reg.ids ++ [c.identity]))
              (rest.map Collector.identity)
          = reg.ids ++ List.filter (fun i => decide (i ∉ reg.ids))
              (c.identity :: rest.map Collector.identity)
        rw [hf, List.filter_cons]
        simp [hm]
      · rw [h3]
        simp only [List.map_cons, hm, if_false]
        congr 1
        apply List.map_congr_left
        intro x hx
        have hxc : x.identity ≠ c.identity :=
          fun hxc => hnot (hxc ▸ List.mem_map_of_mem Collector.identity hx)
        simp [hxc]

/-! ## Registration properties -/

/-- C5 (duplicate registration is absorbed). In every pass of `init` that starts
with the flag unset and in which every `Register` call returns the nil error or
an `AlreadyRegisteredError`, whatever the collector and in any mixture, the loop
attempts all 15 instruments in list order and the pass ends with
`metricsRegistered = true`. -/
theorem duplicate_absorbed {σ : Type}
    (Register : σ → Collector → σ × Option RegError) (st : State σ)
    (hflag : st.metricsRegistered = false)
    (h : ∀ call ∈ (init Register st).2, call.unexpected = false) :
    (init Register st).2.map Call.collector = collectors ∧
    (init Register st).2.length = 15 ∧
    (init Register st).1.metricsRegistered = true := by
  rw [init_of_unregistered Register st hflag] at h ⊢
  obtain ⟨h1, h2⟩ := registerLoop_all_absorbed Register collectors st.registry h
  refine ⟨h2, ?_, h1⟩
  have hl := congrArg List.length h2
  rw [List.length_map] at hl
  exact hl.trans rfl

/-- Witness for C5: all 15 instruments were already registered by another code
path. -/
theorem duplicate_absorbed_witness :
    (init (Registry.Register (fun _ => false))
        ⟨false, ⟨collectors.map Collector.identity⟩⟩).2.map Call.collector = collectors ∧
    (init (Registry.Register (fun _ => false))
        ⟨false, ⟨collectors.map Collector.identity⟩⟩).2.length = 15 ∧
    (init (Registry.Register (fun _ => false))
        ⟨false, ⟨collectors.map Collector.identity⟩⟩).1.metricsRegistered = true :=
  duplicate_absorbed (Registry.Register (fun _ => false))
    ⟨false, ⟨collectors.map Collector.identity⟩⟩ rfl (by decide)

/-- C9 (the registration flag is monotone). In every sequence of runs of `init`,
against any collector behaviour in each run: once the flag is true after some
prefix of the runs, it is true after every longer sequence, the later runs make
no `Register` call and leave the whole state unchanged, and a single run started
from that state returns at once with an empty call log. -/
theorem registration_monotone {σ : Type}
    (Rs1 Rs2 : List (σ → Collector → σ × Option RegError)) (st : State σ)
    (h : (runSeq Rs1 st).1.metricsRegistered = true) :
    (runSeq (Rs1 ++ Rs2) st).1.metricsRegistered = true ∧
    runSeq (Rs1 ++ Rs2) st = runSeq Rs1 st ∧
    (∀ R : σ → Collector → σ × Option RegError,
      init R (runSeq Rs1 st).1 = ((runSeq Rs1 st).1, [])) := by
  have hrun : runSeq (Rs1 ++ Rs2) st = runSeq Rs1 st := by
    rw [runSeq_append, runSeq_of_registered Rs2 _ h]
    simp
  exact ⟨by rw [hrun]; exact h, hrun, fun R => init_of_registered R _ h⟩

/-- Witness for C9: one successful run followed by a run against a collector
that rejects everything. -/
theorem registration_monotone_witness :
    (runSeq ([Registry.Register (fun _ => false)] ++ [Registry.Register (fun _ => true)])
        ⟨false, ⟨[]⟩⟩).1.metricsRegistered = true :=
  (registration_monotone [Registry.Register (fun _ => false)]
    [Registry.Register (fun _ => true)] ⟨false, ⟨[]⟩⟩ (by decide)).1

/-- C6 (abort on unexpected failure). In every pass of `init`, against any
collector behaviour, in which some `Register` call returns an error that is not
an `AlreadyRegisteredError`: the calls made are those for a prefix of the list
ending at the first such instrument, no instrument after it is attempted, and
`metricsRegistered` is left false. A later pass against the reference collector
rejecting none of the instruments then attempts the whole list again from its
first element, and ends with all 15 identities in the collector and the flag
set. -/
theorem abort_on_unexpected_failure
    (Register1 : Registry → Collector → Registry × Option RegError)
    (rejects2 : Collector → Bool) (st : State Registry)
    (hfail : ∃ call ∈ (init Register1 st).2, call.unexpected = true)
    (hok2 : ∀ c ∈ collectors, rejects2 c = false) :
    (∃ (pre : List Call) (c : Collector) (post : List Collector) (e : RegError),
        collectors = pre.map Call.collector ++ c :: post ∧
        (init Register1 st).2 = pre ++ [⟨c, some e⟩] ∧
        e.isAlreadyRegistered = false ∧
        (∀ call ∈ pre, call.unexpected = false)) ∧
    (init Register1 st).1.metricsRegistered = false ∧
    (init (Registry.Register rejects2) (init Register1 st).1).2.map Call.collector
      = collectors ∧
    (init (Registry.Register rejects2) (init Register1 st).1).1.metricsRegistered = true ∧
    (∀ c ∈ collectors,
      c.identity ∈ (init (Registry.Register rejects2) (init Register1 st).1).1.registry.ids) := by
  have hflag : st.metricsRegistered = false := by
    cases hf : st.metricsRegistered with
    | false => rfl
    | true =>
      obtain ⟨call, hc, _⟩ := hfail
      simp [init, hf] at hc
  have hinit := init_of_unregistered Register1 st hflag
  have hinc : (registerLoop Register1 collectors st.registry).completed = false := by
    cases hcomp : (registerLoop Register1 collectors st.registry).completed with
    | false => rfl
    | true =>
      obtain ⟨call, hc, hu⟩ := hfail
      rw [hinit] at hc
      have := registerLoop_completed Register1 collectors st.registry hcomp call hc
      rw [this] at hu
      exact absurd hu (by decide)
  have hst1 : (init Register1 st).1.metricsRegistered = false := by
    rw [hinit]
    exact hinc
  obtain ⟨pre, c, post, e, h1, h2, h3, h4⟩ :=
    registerLoop_aborted Register1 collectors st.registry hinc
  obtain ⟨g1, g2, g3⟩ := registerLoop_reference rejects2 collectors
    (init Register1 st).1.registry collectors_identity_nodup hok2
  have hinit2 := init_of_unregistered (Registry.Register rejects2) (init Register1 st).1 hst1
  refine ⟨⟨pre, c, post, e, h1, by rw [hinit]; exact h2, h3, h4⟩, hst1, ?_, ?_, ?_⟩
  · rw [hinit2]
    show List.map Call.collector
      (registerLoop (Registry.Register rejects2) collectors
        (init Register1 st).1.registry).calls = collectors
    rw [g3, List.map_map]
    exact List.map_id _
  · rw [hinit2]
    exact g1
  · intro x hx
    rw [hinit2]
    show x.identity ∈ (registerLoop (Registry.Register rejects2) collectors
        (init Register1 st).1.registry).registry.ids
    rw [g2]
    by_cases hm : x.identity ∈ (init Register1 st).1.registry.ids
    · exact List.mem_append_left _ hm
    · apply List.mem_append_right
      rw [List.mem_filter]
      exact ⟨List.mem_map_of_mem Collector.identity hx, by simp [hm]⟩

/-- Witness for C6: the fourth instrument is rejected in the first pass and
nothing is rejected in the second. -/
theorem abort_on_unexpected_failure_witness :
    (init (Registry.Register (fun c => decide (c.Name = "pool_hits_total")))
        ⟨false, ⟨[]⟩⟩).1.metricsRegistered = false ∧
    (init (Registry.Register (fun _ => false))
        (init (Registry.Register (fun c => decide (c.Name = "pool_hits_total")))
          ⟨false, ⟨[]⟩⟩).1).1.metricsRegistered = true :=
  ⟨(abort_on_unexpected_failure
      (Registry.Register (fun c => decide (c.Name = "pool_hits_total")))
      (fun _ => false) ⟨false, ⟨[]⟩⟩ (by decide) (by decide)).2.1,
   (abort_on_unexpected_failure
      (Registry.Register (fun c => decide (c.Name = "pool_hits_total")))
      (fun _ => false) ⟨false, ⟨[]⟩⟩ (by decide) (by decide)).2.2.2.1⟩

/-- After the first run of a non-empty sequence of runs against one collector
behaviour that rejects none of the instruments, nothing further happens: the
whole sequence equals its first run. -/
theorem runSeq_replicate_reference (N : Nat) (rejects : Collector → Bool) (r0 : Registry)
    (hN : 1 ≤ N) (hrej : ∀ c ∈ collectors, rejects c = false) :
    runSeq (List.replicate N (Registry.Register rejects)) ⟨false, r0⟩
      = init (Registry.Register rejects) ⟨false, r0⟩ := by
  obtain ⟨n, rfl⟩ : ∃ n, N = n + 1 := ⟨N - 1, by omega⟩
  have g1 := (registerLoop_reference rejects collectors r0 collectors_identity_nodup hrej).1
  have hflag : (init (Registry.Register rejects) ⟨false, r0⟩).1.metricsRegistered = true := by
    rw [init_of_unregistered _ _ rfl]
    exact g1
  simp only [List.replicate_succ, runSeq]
  rw [runSeq_of_registered _ _ hflag]
  simp

/-- C4 (idempotence of registration), as amended. For every `N ≥ 1`, running
`init` `N` times in sequence from the flag unset, against the reference
collector rejecting none of the instruments and holding no identity twice: the
flag ends true; each of the 15 identities is present in the collector exactly
once; `Register` returned the nil error for an identity exactly once over all
`N` runs when that identity was not present before the first run, and not at
all (the `AlreadyRegisteredError` being absorbed) when another code path had
registered it beforehand; the `N` runs together do exactly what the first run
does, and any further run from the final state returns at once, leaving the
collector and the flag unchanged and calling `Register` not at all. -/
theorem registration_idempotent (N : Nat) (rejects : Collector → Bool) (r0 : Registry)
    (hN : 1 ≤ N) (hrej : ∀ c ∈ collectors, rejects c = false) (hnd : r0.ids.Nodup) :
    (runSeq (List.replicate N (Registry.Register rejects))
        ⟨false, r0⟩).1.metricsRegistered = true ∧
    (∀ c ∈ collectors,
      (runSeq (List.replicate N (Registry.Register rejects))
        ⟨false, r0⟩).1.registry.ids.count c.identity = 1) ∧
    (∀ c ∈ collectors, c.identity ∉ r0.ids →
      okCount c.identity
        (runSeq (List.replicate N (Registry.Register rejects)) ⟨false, r0⟩).2 = 1) ∧
    (∀ c ∈ collectors, c.identity ∈ r0.ids →
      okCount c.identity
        (runSeq (List.replicate N (Registry.Register rejects)) ⟨false, r0⟩).2 = 0) ∧
    runSeq (List.replicate N (Registry.Register rejects)) ⟨false, r0⟩
      = init (Registry.Register rejects) ⟨false, r0⟩ ∧
    (∀ R : Registry → Collector → Registry × Option RegError,
      init R (runSeq (List.replicate N (Registry.Register rejects)) ⟨false, r0⟩).1
        = ((runSeq (List.replicate N (Registry.Register rejects)) ⟨false, r0⟩).1, [])) := by
  have hrun := runSeq_replicate_reference N rejects r0 hN hrej
  obtain ⟨g1, g2, g3⟩ :=
    registerLoop_reference rejects collectors r0 collectors_identity_nodup hrej
  have hinit := init_of_unregistered (Registry.Register rejects) ⟨false, r0⟩ rfl
  have hflag : (init (Registry.Register rejects) ⟨false, r0⟩).1.metricsRegistered = true := by
    rw [hinit]
    exact g1
  have hids : (init (Registry.Register rejects) ⟨false, r0⟩).1.registry.ids
      = r0.ids ++ (collectors.map Collector.identity).filter
          (fun i => decide (i ∉ r0.ids)) := by
    rw [hinit]
    exact g2
  have hcalls : (init (Registry.Register rejects) ⟨false, r0⟩).2
      = collectors.map (fun c => Call.mk c
          (if c.identity ∈ r0.ids then some RegError.AlreadyRegisteredError else none)) := by
    rw [hinit]
    exact g3
  have hone : ∀ c ∈ collectors, (collectors.map Collector.identity).count c.identity = 1 :=
    fun c hc => List.count_eq_one_of_mem collectors_identity_nodup
      (List.mem_map_of_mem Collector.identity hc)
  rw [hrun]
  refine ⟨hflag, ?_, ?_, ?_, rfl, fun R => init_of_registered R _ hflag⟩
  · intro c hc
    rw [hids, List.count_append]
    by_cases hm : c.identity ∈ r0.ids
    · rw [List.count_eq_one_of_mem hnd hm, List.count_eq_zero_of_not_mem]
      intro hmem
      rw [List.mem_filter] at hmem
      simp [hm] at hmem
    · rw [List.count_eq_zero_of_not_mem hm, List.count_filter (by simp [hm]), hone c hc]
  · intro c hc hm
    rw [hcalls, okCount, List.countP_map]
    rw [← hone c hc, List.count_eq_countP, List.countP_map]
    apply List.countP_congr
    intro x _
    by_cases hx : x.identity = c.identity
    · simp [Call.ok, hx, hm]
    · simp [hx]
  · intro c hc hm
    rw [hcalls, okCount, List.countP_map, List.countP_eq_zero]
    intro x _
    by_cases hx : x.identity = c.identity
    · simp [Call.ok, hx, hm]
    · simp [hx]

/-- Witness for C4: three runs against an empty collector. -/
theorem registration_idempotent_witness :
    (runSeq (List.replicate 3 (Registry.Register (fun _ => false)))
        ⟨false, ⟨[]⟩⟩).1.metricsRegistered = true ∧
    (∀ c ∈ collectors,
      (runSeq (List.replicate 3 (Registry.Register (fun _ => false)))
        ⟨false, ⟨[]⟩⟩).1.registry.ids.count c.identity = 1) :=
  ⟨(registration_idempotent 3 (fun _ => false) ⟨[]⟩ (by decide) (by decide)
      List.nodup_nil).1,
   (registration_idempotent 3 (fun _ => false) ⟨[]⟩ (by decide) (by decide)
      List.nodup_nil).2.1⟩

/-- Counterexample to C4 as stated: one run against a collector in which another
code path has already registered `pool_hits_total`. Every call returns the nil
error or `AlreadyRegisteredError`, the flag ends true and the identity is
present exactly once, yet `Register` returned the nil error for it zero times,
not once. -/
theorem registration_idempotent_counterexample :
    redisPoolHits ∈ collectors ∧
    (runSeq (List.replicate 1 (Registry.Register (fun _ => false)))
        ⟨false, ⟨[redisPoolHits.identity]⟩⟩).2.map Call.err
      = [none, none, none, some RegError.AlreadyRegisteredError, none, none, none, none,
          none, none, none, none, none, none, none] ∧
    (runSeq (List.replicate 1 (Registry.Register (fun _ => false)))
        ⟨false, ⟨[redisPoolHits.identity]⟩⟩).1.metricsRegistered = true ∧
    (runSeq (List.replicate 1 (Registry.Register (fun _ => false)))
        ⟨false, ⟨[redisPoolHits.identity]⟩⟩).1.registry.ids.count redisPoolHits.identity
      = 1 ∧
    okCount redisPoolHits.identity
      (runSeq (List.replicate 1 (Registry.Register (fun _ => false)))
        ⟨false, ⟨[redisPoolHits.identity]⟩⟩).2 = 0 ∧
    ¬ (okCount redisPoolHits.identity
      (runSeq (List.replicate 1 (Registry.Register (fun _ => false)))
        ⟨false, ⟨[redisPoolHits.identity]⟩⟩).2 = 1) := by
  refine ⟨by decide, by decide, by decide, by decide, by decide, by decide⟩

end LynxRedis
